import Mathlib

/-!
Shallow embedding of `src/mlfaker/demo_dynamics.py` (the dynamic-graph core of
mlfaker) and proofs about it.

Modelling conventions:
* `uuid.UUID` identifiers are modelled as `Nat` (`Uid`): the code relies only on
  equality, hashability and the ascending total order used by `sorted`.
* `float` weights and states are modelled as exact rationals `ℚ`.
* Python dicts are association lists in insertion order (`alistSet` overwrites
  in place, appends fresh keys at the end), matching CPython dict semantics.
* A `pd.Series` is an index list plus a value list.
* Exceptions (`KeyError` from `_build`, numpy dimension errors, `ValueError`
  from `Simulation`) are rendered with `Option`/`Except`; a function that also
  mutates its object returns the new object explicitly.
-/

/-- Identifier type standing for `uuid.UUID`: sortable and hashable. -/
abbrev Uid := Nat

/-- Python class `Node` (demo_dynamics.py line 20): an identity-only vertex; `uid` is its
unique identifier. -/
structure Node where
  uid : Uid
deriving DecidableEq

/-- Python dict lookup `d[k]` as an option (dicts are association lists keyed
by `Uid`). -/
def alistLookup {α : Type} : List (Uid × α) → Uid → Option α
  | [], _ => none
  | (k, a) :: t, k2 => if k = k2 then some a else alistLookup t k2

/-- Python dict assignment `d[k] = a`: overwrite in place if the key is
present, append otherwise (CPython insertion-order semantics). -/
def alistSet {α : Type} : List (Uid × α) → Uid → α → List (Uid × α)
  | [], k2, a2 => [(k2, a2)]
  | (k, a) :: t, k2, a2 => if k = k2 then (k2, a2) :: t else (k, a) :: alistSet t k2 a2

/-- One step of Python `sorted`: insert into an already ascending list. -/
def insertSorted (x : Uid) : List Uid → List Uid
  | [] => [x]
  | y :: t => if x ≤ y then x :: y :: t else y :: insertSorted x t

/-- Python `sorted(list(d))`: ascending sort of the key list. -/
def sortUids (l : List Uid) : List Uid :=
  l.foldr insertSorted []

/-- Python `\x7buid: i for i, uid in enumerate(l)\x7d`: pair each element with its position,
starting at `k`. -/
def withIndices : List Uid → Nat → List (Uid × Nat)
  | [], _ => []
  | u :: t, k => (u, k) :: withIndices t (k + 1)

/-- Indexing `l[i]` as an option. -/
def listNth {α : Type} : List α → Nat → Option α
  | [], _ => none
  | a :: _, 0 => some a
  | _ :: t, n + 1 => listNth t n

/-- Assignment `l[i] = a`: replace position `i`, identity when out of range. -/
def listUpdate {α : Type} : List α → Nat → α → List α
  | [], _, _ => []
  | _ :: t, 0, a => a :: t
  | b :: t, n + 1, a => b :: listUpdate t n a

/-- Assignment `self.M[i][j] = w` on a matrix stored as rows. -/
def matSet (m : List (List ℚ)) (i j : Nat) (w : ℚ) : List (List ℚ) :=
  match listNth m i with
  | some row => listUpdate m i (listUpdate row j w)
  | none => m

/-- Elementwise matrix subtraction (`self.M -= ...`). -/
def matSub (a b : List (List ℚ)) : List (List ℚ) :=
  List.zipWith (List.zipWith (fun x y => x - y)) a b

/-- Python `np.diag(d)`: square matrix with `d` on the diagonal. -/
def diagMat (d : List ℚ) : List (List ℚ) :=
  (List.range d.length).map fun i =>
    (List.range d.length).map fun j => if i = j then d.getD i 0 else 0

/-- Dot product of two equal-length vectors. -/
def dotProd (xs ys : List ℚ) : ℚ :=
  (List.zipWith (fun a b => a * b) xs ys).sum

/-- Python `pd.Series`: an index of node ids plus the values, in index order. -/
structure Series where
  index : List Uid
  values : List ℚ
deriving DecidableEq

/-- Python class `DynamicGraph` (line 42): node registry plus weighted directed adjacency,
`adj[source uid][destination uid] = weight`. -/
structure DynamicGraph where
  adj : List (Uid × List (Uid × ℚ))
  nodes : List (Uid × Node)
deriving DecidableEq

/-- Equality test between a `Node` object and a `uuid.UUID` dict key: `Node`
inherits identity equality from `object`, so it never compares equal to a
`UUID` value. -/
def nodeEqUid (_ : Node) (_ : Uid) : Bool := false

/-- The membership test `u in self.adj` at line 67: `u` is a `Node` object
while the dict is keyed by `uuid.UUID`, so the test is always false. -/
def nodeMemAdj (u : Node) (adj : List (Uid × List (Uid × ℚ))) : Bool :=
  adj.any fun kv => nodeEqUid u kv.fst

/-- Method `DynamicGraph.add_node` (line 61): `self.nodes[node.uid] = node`. -/
def DynamicGraph.add_node (g : DynamicGraph) (node : Node) : DynamicGraph :=
  { g with nodes := alistSet g.nodes node.uid node }

/-- Method `DynamicGraph.add_edge` (lines 64-70): register both endpoints, then
either update the existing row (branch guarded by `u in self.adj`, which never
holds — see `nodeMemAdj`) or bind `self.adj[u.uid] = {v.uid: w}`. -/
def DynamicGraph.add_edge (g : DynamicGraph) (u v : Node) (w : ℚ) : DynamicGraph :=
  let g1 := (g.add_node u).add_node v
  if nodeMemAdj u g1.adj then
    -- `self.adj[u.uid][v.uid] = w`; dead branch, the guard above is always false
    { g1 with adj := alistSet g1.adj u.uid (alistSet ((alistLookup g1.adj u.uid).getD []) v.uid w) }
  else
    -- `self.adj[u.uid] = {v.uid: w}`
    { g1 with adj := alistSet g1.adj u.uid [(v.uid, w)] }

/-- Python class `LinearGraph` (line 80): the `DynamicGraph` container plus the lazily
compiled matrix `M` and index map `N` (both `None` until `_build` runs).
`HeatFlowGraph` adds no fields, so it shares this carrier. -/
structure LinearGraph where
  toDynamicGraph : DynamicGraph
  M : Option (List (List ℚ))
  N : Option (List (Uid × Nat))
deriving DecidableEq

/-- Field shorthand matching Python attribute access `self.adj`. -/
def LinearGraph.adj (g : LinearGraph) : List (Uid × List (Uid × ℚ)) :=
  g.toDynamicGraph.adj

/-- Field shorthand matching Python attribute access `self.nodes`. -/
def LinearGraph.nodes (g : LinearGraph) : List (Uid × Node) :=
  g.toDynamicGraph.nodes

/-- Methods `LinearGraph.__init__` and `LinearGraph._reset` seed the cache to unset. -/
def LinearGraph.reset (g : LinearGraph) : LinearGraph :=
  { g with M := none, N := none }

/-- Fresh `LinearGraph()` (also a fresh `HeatFlowGraph()`). -/
def emptyL : LinearGraph := ⟨⟨[], []⟩, none, none⟩

/-- Method `LinearGraph.add_node` (line 108): `self._reset()` then the base insert. -/
def LinearGraph.add_node (g : LinearGraph) (node : Node) : LinearGraph :=
  let g1 := g.reset
  { g1 with toDynamicGraph := g1.toDynamicGraph.add_node node }

/-- Method `LinearGraph.add_edge` (line 112): `self._reset()` then the base insert. -/
def LinearGraph.add_edge (g : LinearGraph) (u v : Node) (w : ℚ) : LinearGraph :=
  let g1 := g.reset
  { g1 with toDynamicGraph := g1.toDynamicGraph.add_edge u v w }

/-- Inner loop of `_build` (line 121): `for v, w in self.adj[u].items():
self.M[i][self.N[v]] = w`. The `Bool` is false when `self.N[v]` would raise
`KeyError` (unreachable for graphs built through `add_edge`). -/
def fillEntries (N : List (Uid × Nat)) (i : Nat) :
    List (List ℚ) → List (Uid × ℚ) → List (List ℚ) × Bool
  | m, [] => (m, true)
  | m, (v, w) :: rest =>
    match alistLookup N v with
    | some j => fillEntries N i (matSet m i j w) rest
    | none => (m, false)

/-- Outer loop of `_build` (line 120): `for i, u in enumerate(self.N)`, looking
up `self.adj[u]`. The `Bool` is false when that lookup raises `KeyError`,
i.e. when some registered node has no outgoing edges; the partially filled
matrix built so far is returned alongside, matching the in-place numpy writes
already performed when the exception fires. -/
def fillRows (adj : List (Uid × List (Uid × ℚ))) (N : List (Uid × Nat)) :
    List (List ℚ) → List (Uid × Nat) → List (List ℚ) × Bool
  | m, [] => (m, true)
  | m, (u, i) :: rest =>
    match alistLookup adj u with
    | some row =>
      match fillEntries N i m row with
      | (m1, true) => fillRows adj N m1 rest
      | (m1, false) => (m1, false)
    | none => (m, false)

/-- Method `LinearGraph._build` (lines 116-122) as a function of the registry and
adjacency: returns the index map `N`, the matrix `M`, and whether the loops
completed without `KeyError`. -/
def LinearGraph.build (nodes : List (Uid × Node)) (adj : List (Uid × List (Uid × ℚ))) :
    List (Uid × Nat) × List (List ℚ) × Bool :=
  let n := nodes.length
  let N := withIndices (sortUids (nodes.map Prod.fst)) 0
  let r := fillRows adj N (List.replicate n (List.replicate n (0 : ℚ))) N
  (N, r.1, r.2)

/-- Python `np.matmul(self.M, state.values)` wrapped as `pd.Series(..., index=
state.index)` (line 127): `none` when numpy rejects the dimensions. -/
def matVecSeries (M : List (List ℚ)) (s : Series) : Option Series :=
  if s.values.length = M.length then
    some ⟨s.index, M.map fun row => dotProd row s.values⟩
  else none

/-- Method `LinearGraph.evolve` (lines 124-127). Returns the result (none when an
exception propagates) together with the graph after the call, whose cache
fields `M`/`N` are assigned by `_build` exactly when the cache was unset —
including the partially filled `M` left behind when `_build` raises. -/
def LinearGraph.evolve (g : LinearGraph) (s : Series) : Option Series × LinearGraph :=
  match g.M with
  | some M => (matVecSeries M s, g)
  | none =>
    let b := LinearGraph.build g.nodes g.adj
    let g1 := { g with M := some b.2.1, N := some b.1 }
    if b.2.2 then (matVecSeries b.2.1 s, g1) else (none, g1)

/-- Method `HeatFlowGraph._build` (lines 137-146). Lines 138-143 repeat
`LinearGraph._build` verbatim, so we reuse `LinearGraph.build`; then
`degrees = np.sum(self.M, axis=1)`, `degrees = np.where(degrees > 0, degrees,
np.ones(n))`, `self.M -= np.diag(degrees)`. On `KeyError` the subtraction is
never reached and the raw partial matrix is what remains in `self.M`. -/
def HeatFlowGraph.build (nodes : List (Uid × Node)) (adj : List (Uid × List (Uid × ℚ))) :
    List (Uid × Nat) × List (List ℚ) × Bool :=
  let b := LinearGraph.build nodes adj
  if b.2.2 then
    let degrees := b.2.1.map List.sum
    let subbed := degrees.map fun d => if 0 < d then d else 1
    (b.1, matSub b.2.1 (diagMat subbed), true)
  else b

/-- Update `state + delta / len(self.N)` (line 150): both series carry the same
index (the delta was built with `index=state.index`), so pandas adds them
elementwise. -/
def heatUpdate (s delta : Series) (n : Nat) : Series :=
  ⟨s.index, List.zipWith (fun a d => a + d / (n : ℚ)) s.values delta.values⟩

/-- Method `HeatFlowGraph.evolve` (lines 148-150): `delta = super().evolve(state)`
(the `LinearGraph.evolve` body, but `self._build` dispatches to
`HeatFlowGraph._build`), then `state + delta / len(self.N)`. When `self.M` is
set but `self.N` is `None`, `len(self.N)` would raise `TypeError`. -/
def HeatFlowGraph.evolve (g : LinearGraph) (s : Series) : Option Series × LinearGraph :=
  match g.M with
  | some M =>
    match g.N with
    | some N => ((matVecSeries M s).map fun d => heatUpdate s d N.length, g)
    | none => (none, g)
  | none =>
    let b := HeatFlowGraph.build g.nodes g.adj
    let g1 := { g with M := some b.2.1, N := some b.1 }
    if b.2.2 then ((matVecSeries b.2.1 s).map fun d => heatUpdate s d b.1.length, g1)
    else (none, g1)

/-- The errors `Simulation` methods raise (`ValueError` instances in Python;
the spec names them AlignmentError / OrderingError / ArgumentError), plus the
exception propagating out of a failed `evolve` call inside `run`. -/
inductive SimError where
  | alignment (diff : Finset Uid)
  | ordering
  | argument
  | evolveFailure
deriving DecidableEq

/-- Python `nodes ^ idx`: set symmetric difference. -/
def symmDiffU (a b : Finset Uid) : Finset Uid := (a \ b) ∪ (b \ a)

/-- Python `set(self.graph.nodes.keys())`. -/
def nodeIdSet (g : LinearGraph) : Finset Uid := (g.nodes.map Prod.fst).toFinset

/-- Python `set(state.index)`. -/
def indexIdSet (s : Series) : Finset Uid := s.index.toFinset

/-- Python class `Simulation` (line 153): holds the graph and the current state vector. -/
structure Simulation where
  graph : LinearGraph
  state : Series
deriving DecidableEq

/-- Method `Simulation._validate_state` (lines 167-176): the error it raises, if
any: set mismatch first (carrying the symmetric difference), then the
ascending-order check `idx_list != sorted(idx_list)`. -/
def validateState (g : LinearGraph) (s : Series) : Option SimError :=
  if nodeIdSet g = indexIdSet s then
    if s.index = sortUids s.index then none else some .ordering
  else some (.alignment (symmDiffU (nodeIdSet g) (indexIdSet s)))

/-- Method `Simulation.__init__` (lines 162-165): validate, then store graph and
state. -/
def mkSimulation (g : LinearGraph) (s : Series) : Except SimError Simulation :=
  match validateState g s with
  | some e => .error e
  | none => .ok ⟨g, s⟩

/-- One iteration of the `run` loop (line 182): `self.state =
self.graph.evolve(self.state)`, with the dispatched `evolve` passed in as
`ev` and an exception inside `evolve` aborting the call. -/
def stepOnce (ev : LinearGraph → Series → Option Series × LinearGraph)
    (sim : Simulation) : Except SimError Simulation :=
  match ev sim.graph sim.state with
  | (some s1, g1) => .ok ⟨g1, s1⟩
  | (none, _) => .error .evolveFailure

/-- Method `Simulation.run` (lines 178-182): `if not steps > 0: raise ValueError`,
then `for _ in range(steps): self.state = self.graph.evolve(self.state)`. -/
def Simulation.run (ev : LinearGraph → Series → Option Series × LinearGraph)
    (sim : Simulation) (steps : Int) : Except SimError Simulation :=
  if ¬ 0 < steps then .error .argument
  else (List.range steps.toNat).foldlM (fun acc _ => stepOnce ev acc) sim

/-- Reference characterization of the `run` loop: apply `evolve` exactly `n`
times in sequence, each time replacing the held state (and graph cache) with
the returned one, aborting on the first failure. -/
def iterEvolve (ev : LinearGraph → Series → Option Series × LinearGraph) :
    Simulation → Nat → Except SimError Simulation
  | sim, 0 => .ok sim
  | sim, n + 1 =>
    match stepOnce ev sim with
    | .ok s1 => iterEvolve ev s1 n
    | .error e => .error e

/-! ### Spec-side formulas and helper definitions for the claims -/

/-- The heat step formula exactly as claim C5 words it: `s + ((M0 − D)·s)/n`
where `M0` is the raw `LinearGraph` matrix, `D` the diagonal matrix of row
sums of `M0` with the value 1 substituted for any row whose out-degree is
exactly 0, and `n` the current node count. -/
def heatStepClaim (g : LinearGraph) (s : Series) : Option Series :=
  let b := LinearGraph.build g.nodes g.adj
  if b.2.2 then
    let degrees := b.2.1.map List.sum
    let subbed := degrees.map fun d => if d = 0 then 1 else d
    (matVecSeries (matSub b.2.1 (diagMat subbed)) s).map
      fun d => heatUpdate s d g.nodes.length
  else none

/-- The heat step formula of claim C5 with the substitution rule amended to
what the code's `np.where(degrees > 0, degrees, np.ones(n))` does: 1 replaces
every row sum that is not strictly positive (zero or negative). -/
def heatStepSpec (g : LinearGraph) (s : Series) : Option Series :=
  let b := LinearGraph.build g.nodes g.adj
  if b.2.2 then
    let degrees := b.2.1.map List.sum
    let subbed := degrees.map fun d => if 0 < d then d else 1
    (matVecSeries (matSub b.2.1 (diagMat subbed)) s).map
      fun d => heatUpdate s d g.nodes.length
  else none

/-- The cache invariant of the spec's data model for a heat-flow graph: the
compiled matrix and index map are either unset or exactly what
`HeatFlowGraph._build` derives from the current registry and adjacency. Every
state reachable through `add_node`/`add_edge`/`evolve` satisfies it. -/
def heatCacheConsistent (g : LinearGraph) : Prop :=
  (g.M = none ∧ g.N = none) ∨
  (g.M = some (HeatFlowGraph.build g.nodes g.adj).2.1 ∧
   g.N = some (HeatFlowGraph.build g.nodes g.adj).1 ∧
   (HeatFlowGraph.build g.nodes g.adj).2.2 = true)

/-- Concrete graph for C1: `add_edge(u, v1, 1)` then `add_edge(u, v2, 2)`
with `id(u) = 0`, `id(v1) = 1`, `id(v2) = 2`. -/
def gC1 : DynamicGraph :=
  (DynamicGraph.add_edge ⟨[], []⟩ ⟨0⟩ ⟨1⟩ 1).add_edge ⟨0⟩ ⟨2⟩ 2

/-- Concrete graph for C2/C3: a single node registered via `add_node` only. -/
def gC2 : LinearGraph := emptyL.add_node ⟨0⟩

/-- Concrete graph for C2: node 1 appears only as an edge destination. -/
def gC2b : LinearGraph := emptyL.add_edge ⟨0⟩ ⟨1⟩ 1

/-- Concrete graph for C3: edges 0→1 (weight 1) and 1→1 (weight 0); node 0
has no incoming edge. -/
def gC3 : LinearGraph := (emptyL.add_edge ⟨0⟩ ⟨1⟩ 1).add_edge ⟨1⟩ ⟨1⟩ 0

/-- Concrete graph for C5's counterexample: one node with a self-loop of
weight −1, giving a strictly negative out-degree. -/
def gC5 : LinearGraph := emptyL.add_edge ⟨0⟩ ⟨0⟩ (-1)

/-- The spec's 2-node oscillator: edges a→b and b→a of weight 1, built with
`id(a) = ia` and `id(b) = ib`. -/
def oscGraph (ia ib : Uid) : LinearGraph :=
  (emptyL.add_edge ⟨ia⟩ ⟨ib⟩ 1).add_edge ⟨ib⟩ ⟨ia⟩ 1

/-! ### Helper lemmas -/

/-- The membership test `u in self.adj` of `add_edge` is always false: a
`Node` object never equals a `uuid.UUID` key. -/
@[simp] theorem nodeMemAdj_eq_false (u : Node) (adj : List (Uid × List (Uid × ℚ))) :
    nodeMemAdj u adj = false := by
  induction adj with
  | nil => rfl
  | cons a t ih =>
    simp only [nodeMemAdj, List.any_cons, nodeEqUid, Bool.false_or]
    exact ih

theorem length_insertSorted (x : Uid) (l : List Uid) :
    (insertSorted x l).length = l.length + 1 := by
  induction l with
  | nil => rfl
  | cons y t ih =>
    by_cases h : x ≤ y <;> simp [insertSorted, h, ih]

theorem length_sortUids (l : List Uid) : (sortUids l).length = l.length := by
  induction l with
  | nil => rfl
  | cons x t ih => simp [sortUids, List.foldr] at ih ⊢; rw [length_insertSorted, ih]

theorem length_withIndices (l : List Uid) (k : Nat) :
    (withIndices l k).length = l.length := by
  induction l generalizing k with
  | nil => rfl
  | cons x t ih => simp [withIndices, ih]

/-- The index map built by `_build` has one entry per registered node. -/
theorem build_N_length (nodes : List (Uid × Node)) (adj : List (Uid × List (Uid × ℚ))) :
    (LinearGraph.build nodes adj).1.length = nodes.length := by
  simp [LinearGraph.build, length_withIndices, length_sortUids]

/-- A successful `LinearGraph.evolve` product carries the input's index. -/
theorem matVecSeries_index {M : List (List ℚ)} {s r : Series}
    (h : matVecSeries M s = some r) : r.index = s.index := by
  unfold matVecSeries at h
  split at h
  · cases h; rfl
  · exact Option.noConfusion h

/-- The `for _ in range(steps)` loop of `run` applies `evolve` once per
element, i.e. exactly `length`-many times in sequence. -/
theorem foldlM_stepOnce (ev : LinearGraph → Series → Option Series × LinearGraph) :
    ∀ {α : Type} (l : List α) (sim : Simulation),
      l.foldlM (fun acc _ => stepOnce ev acc) sim = iterEvolve ev sim l.length := by
  intro α l
  induction l with
  | nil => intro sim; rfl
  | cons a t ih =>
    intro sim
    rw [List.foldlM_cons, List.length_cons]
    cases hstep : stepOnce ev sim with
    | ok s1 =>
      have hr : iterEvolve ev sim (t.length + 1) = iterEvolve ev s1 t.length := by
        simp only [iterEvolve, hstep]
      rw [hr]
      exact ih s1
    | error e =>
      have hr : iterEvolve ev sim (t.length + 1) = Except.error e := by
        simp only [iterEvolve, hstep]
      rw [hr]
      rfl

/-- The run loop never raises the ArgumentError: its only failure is an
exception escaping `evolve`. -/
theorem iterEvolve_ne_argument (ev : LinearGraph → Series → Option Series × LinearGraph) :
    ∀ (n : Nat) (sim : Simulation),
      iterEvolve ev sim n ≠ Except.error SimError.argument := by
  intro n
  induction n with
  | zero => intro sim h; exact Except.noConfusion h
  | succ k ih =>
    intro sim h
    unfold iterEvolve at h
    revert h
    cases hstep : stepOnce ev sim with
    | ok s1 => exact fun h => ih s1 h
    | error e =>
      intro h
      unfold stepOnce at hstep
      revert hstep
      cases hev : ev sim.graph sim.state with
      | mk o g1 =>
        cases o with
        | some s1 => intro hstep; exact Except.noConfusion hstep
        | none =>
          intro hstep
          cases hstep
          cases h

/-! ### Claim theorems -/

/-- C1 (code bug): after `add_edge(u, v1, 1)` then `add_edge(u, v2, 2)` the
code has discarded the edge (id(u), id(v1)) entirely — `u`'s whole out-edge
dict was replaced by `{id(v2): 2}` — because the guard `u in self.adj`
compares a `Node` object against `uuid.UUID` keys and is never true. The
claim says the weight of (id(u), id(v1)) stays 1. -/
theorem C1_add_edge_discards_previous_edge :
    gC1.adj = [(0, [(2, 2)])] ∧
    alistLookup ((alistLookup gC1.adj 0).getD []) 1 = none ∧
    alistLookup ((alistLookup gC1.adj 0).getD []) 2 = some 2 := by
  decide

/-- C2 (code bug): `evolve` with a perfectly aligned, ascending-sorted state
vector fails whenever some registered node has no outgoing edges, because
`_build` evaluates `self.adj[u]` for every registered node and raises
`KeyError`. Exhibited both for a node registered via `add_node` only (`gC2`)
and for a node appearing only as an edge destination (`gC2b`), on
`LinearGraph` and `HeatFlowGraph` evolution alike. The claim says such
evolutions succeed with an all-zero matrix row for those nodes. -/
theorem C2_evolve_fails_on_sinkless_node :
    (LinearGraph.evolve gC2 ⟨[0], [0]⟩).1 = none ∧
    (LinearGraph.evolve gC2b ⟨[0, 1], [1, 2]⟩).1 = none ∧
    (HeatFlowGraph.evolve gC2 ⟨[0], [0]⟩).1 = none ∧
    (HeatFlowGraph.evolve gC2b ⟨[0, 1], [1, 2]⟩).1 = none := by
  decide

/-- C3 (code bug): in `gC3` (edges 0→1 and 1→1 only) node 0 has **no**
predecessors — no adjacency row contains key 0 — yet two aligned state
vectors that differ only at node 1 (a successor of 0, not a predecessor)
produce evolve outputs that differ at node 0: the compiled row of node 0
holds its out-edge weights, so `matmul` makes a node's next state a function
of its successors' states, contradicting the claim (and the module docstring
"a node's state can only be affected by the state of it's parent nodes"). -/
theorem C3_evolve_depends_on_successors :
    (gC3.adj.all fun p => (alistLookup p.2 0).isNone) = true ∧
    (LinearGraph.evolve gC3 ⟨[0, 1], [5, 0]⟩).1 = some ⟨[0, 1], [0, 0]⟩ ∧
    (LinearGraph.evolve gC3 ⟨[0, 1], [5, 7]⟩).1 = some ⟨[0, 1], [7, 0]⟩ := by
  refine ⟨by decide, ?_, ?_⟩ <;>
    norm_num [gC3, emptyL, LinearGraph.add_edge, LinearGraph.reset, LinearGraph.adj,
      LinearGraph.nodes, DynamicGraph.add_edge, DynamicGraph.add_node, alistSet, alistLookup,
      LinearGraph.evolve, LinearGraph.build, sortUids, insertSorted, withIndices, fillRows,
      fillEntries, matSet, listNth, listUpdate, matVecSeries, dotProd, List.replicate]

/-- C5 counterexample: on the one-node graph with a self-loop of weight −1
the row sum is −1, which is not 0, so the claim's operator substitutes
nothing and predicts `evolve([1]) = [1]`; the code's `np.where(degrees > 0,
degrees, ones)` replaces the −1 by 1 and yields `[-1]`. -/
theorem C5_counterexample_negative_degree :
    (HeatFlowGraph.evolve gC5 ⟨[0], [1]⟩).1 = some ⟨[0], [-1]⟩ ∧
    heatStepClaim gC5 ⟨[0], [1]⟩ = some ⟨[0], [1]⟩ ∧
    0 < gC5.nodes.length := by
  refine ⟨?_, ?_, by decide⟩ <;>
    norm_num [gC5, emptyL, LinearGraph.add_edge, LinearGraph.reset, LinearGraph.adj,
      LinearGraph.nodes, DynamicGraph.add_edge, DynamicGraph.add_node, alistSet, alistLookup,
      HeatFlowGraph.evolve, HeatFlowGraph.build, LinearGraph.build, sortUids, insertSorted,
      withIndices, fillRows, fillEntries, matSet, listNth, listUpdate, matVecSeries, dotProd,
      heatStepClaim, heatUpdate, matSub, diagMat, List.replicate, List.sum,
      List.range_succ, List.range_zero, List.getD]

/-- A successful `HeatFlowGraph.evolve` result carries the input's index. -/
theorem heatMap_index {M : List (List ℚ)} {s r : Series} {n : Nat}
    (h : ((matVecSeries M s).map fun d => heatUpdate s d n) = some r) :
    r.index = s.index := by
  cases ho : matVecSeries M s with
  | none => rw [ho] at h; exact Option.noConfusion h
  | some d => rw [ho] at h; cases h; rfl

/-- The graph state after `LinearGraph.evolve`: untouched when the cache was
set, otherwise the container with the `_build` outputs written into the
cache fields. -/
theorem linEvolve_snd (g : LinearGraph) (s : Series) :
    (LinearGraph.evolve g s).2 =
      (match g.M with
       | some _ => g
       | none => { g with M := some (LinearGraph.build g.nodes g.adj).2.1,
                          N := some (LinearGraph.build g.nodes g.adj).1 }) := by
  unfold LinearGraph.evolve
  cases g.M with
  | some M => rfl
  | none => dsimp only; split <;> rfl

/-- The graph state after `HeatFlowGraph.evolve`, in the same way. -/
theorem heatEvolve_snd (g : LinearGraph) (s : Series) :
    (HeatFlowGraph.evolve g s).2 =
      (match g.M with
       | some _ => g
       | none => { g with M := some (HeatFlowGraph.build g.nodes g.adj).2.1,
                          N := some (HeatFlowGraph.build g.nodes g.adj).1 }) := by
  unfold HeatFlowGraph.evolve
  cases g.M with
  | some M => cases g.N <;> rfl
  | none => dsimp only; split <;> rfl

/-- C4: `add_node` and `add_edge` always reset the compiled cache to unset
(first four conjuncts), so an `evolve` that follows an `add_edge` performed
after a cache-compiling `evolve` computes exactly what a freshly built graph
with the same registry and adjacency computes (next two conjuncts, for
`LinearGraph` and `HeatFlowGraph`); concretely, on the compiled 0/1
oscillator, `add_edge(a, a, 5)` changes the next evolve result from `[0, 1]`
to `[5, 1]` — the new weight influences the second result. -/
theorem C4_mutation_resets_cache :
    ∀ (g : LinearGraph) (node u v : Node) (w : ℚ) (s0 s : Series),
      (g.add_node node).M = none ∧ (g.add_node node).N = none ∧
      (g.add_edge u v w).M = none ∧ (g.add_edge u v w).N = none ∧
      (LinearGraph.evolve ((LinearGraph.evolve g s0).2.add_edge u v w) s).1 =
        (LinearGraph.evolve
          ⟨((LinearGraph.evolve g s0).2.add_edge u v w).toDynamicGraph, none, none⟩ s).1 ∧
      (HeatFlowGraph.evolve ((HeatFlowGraph.evolve g s0).2.add_edge u v w) s).1 =
        (HeatFlowGraph.evolve
          ⟨((HeatFlowGraph.evolve g s0).2.add_edge u v w).toDynamicGraph, none, none⟩ s).1 ∧
      (LinearGraph.evolve ((LinearGraph.evolve (oscGraph 0 1) ⟨[0, 1], [1, 0]⟩).2.add_edge
          ⟨0⟩ ⟨0⟩ 5) ⟨[0, 1], [1, 0]⟩).1 = some ⟨[0, 1], [5, 1]⟩ := by
  intro g node u v w s0 s
  refine ⟨rfl, rfl, rfl, rfl, rfl, rfl, ?_⟩
  norm_num [oscGraph, emptyL, LinearGraph.add_edge, LinearGraph.reset, LinearGraph.adj,
    LinearGraph.nodes, DynamicGraph.add_edge, DynamicGraph.add_node, alistSet, alistLookup,
    LinearGraph.evolve, LinearGraph.build, sortUids, insertSorted, withIndices, fillRows,
    fillEntries, matSet, listNth, listUpdate, matVecSeries, dotProd, List.replicate]

/-- C7: on an aligned, ascending-sorted state vector, whenever `evolve`
returns a vector (for either graph kind) that vector carries exactly the
input's index — same key set, same order — because the output series is
constructed with `index=state.index`. -/
theorem C7_evolve_preserves_index (g : LinearGraph) (s : Series)
    (_hal : indexIdSet s = nodeIdSet g) (_hsort : s.index = sortUids s.index) :
    (∀ r : Series, (LinearGraph.evolve g s).1 = some r → r.index = s.index) ∧
    (∀ r : Series, (HeatFlowGraph.evolve g s).1 = some r → r.index = s.index) := by
  constructor
  · intro r hr
    unfold LinearGraph.evolve at hr
    split at hr
    · exact matVecSeries_index hr
    · dsimp only at hr
      split at hr
      · exact matVecSeries_index hr
      · exact Option.noConfusion hr
  · intro r hr
    unfold HeatFlowGraph.evolve at hr
    split at hr
    · split at hr
      · exact heatMap_index hr
      · exact Option.noConfusion hr
    · dsimp only at hr
      split at hr
      · exact heatMap_index hr
      · exact Option.noConfusion hr

/-- C7 witness: the oscillator with ids 0 < 1 and the aligned sorted state
`[1, 0]`: both evolutions succeed and the returned vectors carry index
`[0, 1]`, the input's index. -/
theorem C7_evolve_preserves_index_witness :
    (Series.mk [0, 1] [0, 1]).index = (Series.mk [0, 1] [1, 0]).index ∧
    (Series.mk [0, 1] [1/2, 1/2]).index = (Series.mk [0, 1] [1, 0]).index := by
  have h := C7_evolve_preserves_index (oscGraph 0 1) ⟨[0, 1], [1, 0]⟩ (by decide) (by decide)
  constructor
  · refine h.1 ⟨[0, 1], [0, 1]⟩ ?_
    norm_num [oscGraph, emptyL, LinearGraph.add_edge, LinearGraph.reset, LinearGraph.adj,
      LinearGraph.nodes, DynamicGraph.add_edge, DynamicGraph.add_node, alistSet, alistLookup,
      LinearGraph.evolve, LinearGraph.build, sortUids, insertSorted, withIndices, fillRows,
      fillEntries, matSet, listNth, listUpdate, matVecSeries, dotProd, List.replicate]
  · refine h.2 ⟨[0, 1], [1/2, 1/2]⟩ ?_
    norm_num [oscGraph, emptyL, LinearGraph.add_edge, LinearGraph.reset, LinearGraph.adj,
      LinearGraph.nodes, DynamicGraph.add_edge, DynamicGraph.add_node, alistSet, alistLookup,
      HeatFlowGraph.evolve, HeatFlowGraph.build, LinearGraph.build, sortUids, insertSorted,
      withIndices, fillRows, fillEntries, matSet, listNth, listUpdate, matVecSeries, dotProd,
      heatUpdate, matSub, diagMat, List.replicate, List.sum, List.range_succ, List.range_zero,
      List.getD]

/-- C8: an `evolve` call (either graph kind) leaves the node registry and the
adjacency untouched; the compiled-matrix cache is the only state it writes,
and it keeps the cached values when they were already set, populating them
from `_build` when unset. (The embedding is purely functional, so the input
state vector is unchanged by construction.) -/
theorem C8_evolve_frame (g : LinearGraph) (s : Series) :
    ((LinearGraph.evolve g s).2.nodes = g.nodes ∧
     (LinearGraph.evolve g s).2.adj = g.adj ∧
     (LinearGraph.evolve g s).2.M = some (g.M.getD (LinearGraph.build g.nodes g.adj).2.1) ∧
     (LinearGraph.evolve g s).2.N =
       (match g.M with
        | some _ => g.N
        | none => some (LinearGraph.build g.nodes g.adj).1)) ∧
    ((HeatFlowGraph.evolve g s).2.nodes = g.nodes ∧
     (HeatFlowGraph.evolve g s).2.adj = g.adj ∧
     (HeatFlowGraph.evolve g s).2.M = some (g.M.getD (HeatFlowGraph.build g.nodes g.adj).2.1) ∧
     (HeatFlowGraph.evolve g s).2.N =
       (match g.M with
        | some _ => g.N
        | none => some (HeatFlowGraph.build g.nodes g.adj).1)) := by
  rw [linEvolve_snd, heatEvolve_snd]
  cases hM : g.M with
  | some M => exact ⟨⟨rfl, rfl, hM, rfl⟩, ⟨rfl, rfl, hM, rfl⟩⟩
  | none => exact ⟨⟨rfl, rfl, rfl, rfl⟩, ⟨rfl, rfl, rfl, rfl⟩⟩

/-- C9: `Simulation` construction errors with the AlignmentError carrying the
symmetric difference of the two id sets exactly when the state vector's key
set differs from the graph's node id set; with equal key sets and an
ascending index, construction succeeds and stores the graph and the state
vector. -/
theorem C9_sim_validation (g : LinearGraph) (s : Series) :
    (mkSimulation g s = .error (.alignment (symmDiffU (nodeIdSet g) (indexIdSet s))) ↔
      nodeIdSet g ≠ indexIdSet s) ∧
    (nodeIdSet g = indexIdSet s ∧ s.index = sortUids s.index →
      mkSimulation g s = .ok ⟨g, s⟩) := by
  constructor
  · constructor
    · intro hmk hcontra
      unfold mkSimulation validateState at hmk
      rw [if_pos hcontra] at hmk
      by_cases h2 : s.index = sortUids s.index
      · rw [if_pos h2] at hmk
        exact Except.noConfusion hmk
      · rw [if_neg h2] at hmk
        cases hmk
    · intro hne
      unfold mkSimulation validateState
      rw [if_neg hne]
  · intro h
    unfold mkSimulation validateState
    rw [if_pos h.1, if_pos h.2]

/-- C9 witness: on the 0/1 oscillator, the aligned sorted vector `[1, 0]`
constructs successfully, while the vector keyed `[0]` alone is rejected with
the AlignmentError carrying the symmetric difference `{1}`. -/
theorem C9_sim_validation_witness :
    mkSimulation (oscGraph 0 1) ⟨[0, 1], [1, 0]⟩ = .ok ⟨oscGraph 0 1, ⟨[0, 1], [1, 0]⟩⟩ ∧
    mkSimulation (oscGraph 0 1) ⟨[0], [1]⟩ =
      .error (.alignment (symmDiffU (nodeIdSet (oscGraph 0 1)) (indexIdSet ⟨[0], [1]⟩))) :=
  ⟨(C9_sim_validation (oscGraph 0 1) ⟨[0, 1], [1, 0]⟩).2 (by decide),
   (C9_sim_validation (oscGraph 0 1) ⟨[0], [1]⟩).1.mpr (by decide)⟩

/-- C10: `run(steps)` raises the ArgumentError for every `steps ≤ 0` (the
pure embedding returns the error without any state change), and for
`steps > 0` it never raises that error and equals `iterEvolve` applied
`steps` times — `evolve` is called exactly `steps` times in sequence, each
time replacing the held state (and graph cache) with the returned one. -/
theorem C10_run_steps (ev : LinearGraph → Series → Option Series × LinearGraph)
    (sim : Simulation) (steps : Int) :
    (steps ≤ 0 → Simulation.run ev sim steps = .error .argument) ∧
    (0 < steps →
      Simulation.run ev sim steps = iterEvolve ev sim steps.toNat ∧
      Simulation.run ev sim steps ≠ .error .argument) := by
  constructor
  · intro h
    unfold Simulation.run
    rw [if_pos (Int.not_lt.mpr h)]
  · intro h
    have hrun : Simulation.run ev sim steps = iterEvolve ev sim steps.toNat := by
      unfold Simulation.run
      rw [if_neg (not_not_intro h), foldlM_stepOnce ev (List.range steps.toNat) sim,
        List.length_range]
    exact ⟨hrun, by rw [hrun]; exact iterEvolve_ne_argument ev steps.toNat sim⟩

/-- C10 witness: with the held state `[1, 0]` on the 0/1 oscillator, `run 0`
and `run (-1)` raise the ArgumentError, and `run 2` performs exactly two
evolve steps. -/
theorem C10_run_steps_witness :
    Simulation.run LinearGraph.evolve ⟨oscGraph 0 1, ⟨[0, 1], [1, 0]⟩⟩ 0 =
      .error .argument ∧
    Simulation.run LinearGraph.evolve ⟨oscGraph 0 1, ⟨[0, 1], [1, 0]⟩⟩ (-1) =
      .error .argument ∧
    Simulation.run LinearGraph.evolve ⟨oscGraph 0 1, ⟨[0, 1], [1, 0]⟩⟩ 2 =
      iterEvolve LinearGraph.evolve ⟨oscGraph 0 1, ⟨[0, 1], [1, 0]⟩⟩ 2 :=
  ⟨(C10_run_steps LinearGraph.evolve ⟨oscGraph 0 1, ⟨[0, 1], [1, 0]⟩⟩ 0).1 (by decide),
   (C10_run_steps LinearGraph.evolve ⟨oscGraph 0 1, ⟨[0, 1], [1, 0]⟩⟩ (-1)).1 (by decide),
   ((C10_run_steps LinearGraph.evolve ⟨oscGraph 0 1, ⟨[0, 1], [1, 0]⟩⟩ 2).2 (by decide)).1⟩

/-- The result of `LinearGraph.evolve`: the product with the cached matrix,
or with the freshly built one when the cache is unset (none on `KeyError`). -/
theorem linEvolve_fst (g : LinearGraph) (s : Series) :
    (LinearGraph.evolve g s).1 =
      (match g.M with
       | some M => matVecSeries M s
       | none =>
         if (LinearGraph.build g.nodes g.adj).2.2 then
           matVecSeries (LinearGraph.build g.nodes g.adj).2.1 s
         else none) := by
  unfold LinearGraph.evolve
  cases g.M with
  | some M => rfl
  | none =>
    dsimp only
    split <;> rfl

/-- The result of `HeatFlowGraph.evolve`, in the same way (with the
`len(self.N)` divisor and the `state + delta/n` update). -/
theorem heatEvolve_fst (g : LinearGraph) (s : Series) :
    (HeatFlowGraph.evolve g s).1 =
      (match g.M, g.N with
       | some M, some N => (matVecSeries M s).map fun d => heatUpdate s d N.length
       | some _, none => none
       | none, _ =>
         if (HeatFlowGraph.build g.nodes g.adj).2.2 then
           (matVecSeries (HeatFlowGraph.build g.nodes g.adj).2.1 s).map
             fun d => heatUpdate s d (HeatFlowGraph.build g.nodes g.adj).1.length
         else none) := by
  unfold HeatFlowGraph.evolve
  cases g.M with
  | some M => cases g.N <;> rfl
  | none =>
    dsimp only
    split <;> rfl

/-- Unfolding of `HeatFlowGraph._build` with the internal `let` laid out explicitly. -/
theorem heatBuild_eq (nodes : List (Uid × Node)) (adj : List (Uid × List (Uid × ℚ))) :
    HeatFlowGraph.build nodes adj =
      (if (LinearGraph.build nodes adj).2.2 then
        ((LinearGraph.build nodes adj).1,
         matSub (LinearGraph.build nodes adj).2.1
           (diagMat (((LinearGraph.build nodes adj).2.1.map List.sum).map
             fun d => if 0 < d then d else 1)), true)
      else LinearGraph.build nodes adj) := rfl

/-- C5 (amended): for a heat-flow graph with at least one node, an aligned
ascending state vector, and the cache unset or consistently compiled,
`evolve(s)` is exactly `s + ((M0 − D)·s)/n` where `D` substitutes 1 for every
row sum that is **not strictly positive** (zero or negative) — the code's
`np.where(degrees > 0, ...)` rule, amending the claim's "exactly 0" rule. -/
theorem C5_heat_step_formula (g : LinearGraph) (s : Series)
    (_hn : 0 < g.nodes.length)
    (_hal : indexIdSet s = nodeIdSet g) (_hsort : s.index = sortUids s.index)
    (hc : heatCacheConsistent g) :
    (HeatFlowGraph.evolve g s).1 = heatStepSpec g s := by
  rcases hc with ⟨hM, hN⟩ | ⟨hM, hN, hok⟩
  · rw [heatEvolve_fst, hM]
    unfold heatStepSpec
    dsimp only
    by_cases hb : (LinearGraph.build g.nodes g.adj).2.2 = true
    · have hhb : HeatFlowGraph.build g.nodes g.adj =
          ((LinearGraph.build g.nodes g.adj).1,
           matSub (LinearGraph.build g.nodes g.adj).2.1
             (diagMat (((LinearGraph.build g.nodes g.adj).2.1.map List.sum).map
               fun d => if 0 < d then d else 1)), true) := by
        rw [heatBuild_eq, if_pos hb]
      rw [hhb]
      dsimp only
      rw [if_pos rfl, if_pos hb, build_N_length]
    · have hhb : HeatFlowGraph.build g.nodes g.adj = LinearGraph.build g.nodes g.adj := by
        rw [heatBuild_eq, if_neg hb]
      rw [hhb, if_neg hb, if_neg hb]
  · have hb : (LinearGraph.build g.nodes g.adj).2.2 = true := by
      by_contra hbf
      have hsame : (HeatFlowGraph.build g.nodes g.adj).2.2 =
          (LinearGraph.build g.nodes g.adj).2.2 := by
        rw [heatBuild_eq, if_neg hbf]
      rw [hsame] at hok
      exact hbf hok
    have hhb : HeatFlowGraph.build g.nodes g.adj =
        ((LinearGraph.build g.nodes g.adj).1,
         matSub (LinearGraph.build g.nodes g.adj).2.1
           (diagMat (((LinearGraph.build g.nodes g.adj).2.1.map List.sum).map
             fun d => if 0 < d then d else 1)), true) := by
      rw [heatBuild_eq, if_pos hb]
    rw [heatEvolve_fst, hM, hN, hhb]
    unfold heatStepSpec
    dsimp only
    rw [if_pos hb, build_N_length]

/-- C5 witness: the 0/1 oscillator as a heat-flow graph with the aligned
sorted state `[1, 0]`: the hypotheses hold and both sides of the amended
formula evaluate to the same vector. -/
theorem C5_heat_step_formula_witness :
    (HeatFlowGraph.evolve (oscGraph 0 1) ⟨[0, 1], [1, 0]⟩).1 =
      heatStepSpec (oscGraph 0 1) ⟨[0, 1], [1, 0]⟩ ∧
    heatStepSpec (oscGraph 0 1) ⟨[0, 1], [1, 0]⟩ = some ⟨[0, 1], [1/2, 1/2]⟩ := by
  constructor
  · exact C5_heat_step_formula (oscGraph 0 1) ⟨[0, 1], [1, 0]⟩ (by decide) (by decide)
      (by decide) (Or.inl ⟨rfl, rfl⟩)
  · norm_num [oscGraph, emptyL, LinearGraph.add_edge, LinearGraph.reset, LinearGraph.adj,
      LinearGraph.nodes, DynamicGraph.add_edge, DynamicGraph.add_node, alistSet, alistLookup,
      heatStepSpec, LinearGraph.build, sortUids, insertSorted, withIndices, fillRows,
      fillEntries, matSet, listNth, listUpdate, matVecSeries, dotProd, heatUpdate, matSub,
      diagMat, List.replicate, List.sum, List.range_succ, List.range_zero, List.getD]

/-- C6: for every pair of identifiers with `ia < ib`, the 2-node oscillator
(edges a→b and b→a, weight 1) evolves `[1, 0]` to `[0, 1]` in one step and
back to `[1, 0]` in a second step (through the cache populated by the first
step) — a period-2 cycle independent of the concrete identifier values. -/
theorem C6_oscillator_cycle (ia ib : Uid) (h : ia < ib) :
    (LinearGraph.evolve (oscGraph ia ib) ⟨[ia, ib], [1, 0]⟩).1 = some ⟨[ia, ib], [0, 1]⟩ ∧
    (LinearGraph.evolve (LinearGraph.evolve (oscGraph ia ib) ⟨[ia, ib], [1, 0]⟩).2
      ⟨[ia, ib], [0, 1]⟩).1 = some ⟨[ia, ib], [1, 0]⟩ := by
  have hne : ia ≠ ib := Nat.ne_of_lt h
  have hne2 : ib ≠ ia := Ne.symm hne
  have hle : ia ≤ ib := Nat.le_of_lt h
  have hnodes : (oscGraph ia ib).nodes = [(ia, ⟨ia⟩), (ib, ⟨ib⟩)] := by
    simp [oscGraph, emptyL, LinearGraph.add_edge, LinearGraph.reset, LinearGraph.nodes,
      DynamicGraph.add_edge, DynamicGraph.add_node, alistSet, hne, hne2]
  have hadj : (oscGraph ia ib).adj = [(ia, [(ib, 1)]), (ib, [(ia, 1)])] := by
    simp [oscGraph, emptyL, LinearGraph.add_edge, LinearGraph.reset, LinearGraph.adj,
      DynamicGraph.add_edge, DynamicGraph.add_node, alistSet, hne, hne2]
  have hm1 : matSet [[(0 : ℚ), 0], [0, 0]] 0 1 1 = [[0, 1], [0, 0]] := by
    norm_num [matSet, listNth, listUpdate]
  have hm2 : matSet [[(0 : ℚ), 1], [0, 0]] 1 0 1 = [[0, 1], [1, 0]] := by
    norm_num [matSet, listNth, listUpdate]
  have hb : LinearGraph.build (oscGraph ia ib).nodes (oscGraph ia ib).adj
      = ([(ia, 0), (ib, 1)], [[0, 1], [1, 0]], true) := by
    rw [hnodes, hadj]
    simp [LinearGraph.build, sortUids, insertSorted, withIndices, fillRows, fillEntries,
      alistLookup, hm1, hm2, hne, hne2, hle, List.replicate]
  have hv1 : matVecSeries [[0, 1], [1, 0]] ⟨[ia, ib], [1, 0]⟩ = some ⟨[ia, ib], [0, 1]⟩ := by
    norm_num [matVecSeries, dotProd]
  have hv2 : matVecSeries [[0, 1], [1, 0]] ⟨[ia, ib], [0, 1]⟩ = some ⟨[ia, ib], [1, 0]⟩ := by
    norm_num [matVecSeries, dotProd]
  have hM0 : (oscGraph ia ib).M = none := rfl
  have e1 : (LinearGraph.evolve (oscGraph ia ib) ⟨[ia, ib], [1, 0]⟩).1
      = some ⟨[ia, ib], [0, 1]⟩ := by
    rw [linEvolve_fst, hM0]
    dsimp only
    rw [hb]
    dsimp only
    rw [if_pos rfl]
    exact hv1
  have hg1 : (LinearGraph.evolve (oscGraph ia ib) ⟨[ia, ib], [1, 0]⟩).2
      = { oscGraph ia ib with M := some [[0, 1], [1, 0]], N := some [(ia, 0), (ib, 1)] } := by
    rw [linEvolve_snd, hM0]
    dsimp only
    rw [hb]
  refine ⟨e1, ?_⟩
  rw [hg1, linEvolve_fst]
  dsimp only
  exact hv2

/-- C6 witness: the oscillator at the concrete identifiers 0 < 1. -/
theorem C6_oscillator_cycle_witness :
    (LinearGraph.evolve (oscGraph 0 1) ⟨[0, 1], [1, 0]⟩).1 = some ⟨[0, 1], [0, 1]⟩ ∧
    (LinearGraph.evolve (LinearGraph.evolve (oscGraph 0 1) ⟨[0, 1], [1, 0]⟩).2
      ⟨[0, 1], [0, 1]⟩).1 = some ⟨[0, 1], [1, 0]⟩ :=
  C6_oscillator_cycle 0 1 (by decide)
